import Mathlib

/-!
Verification of the Centinela Verde environmental-hazard sentinel node
(src/centinela-verde.cpp).  The repository holds two near-duplicate
Arduino programs separated by a document marker: a first, condensed
program (lines 1-233) and a second, commented program (lines 235-536).
Where the two disagree (radio-abort policy, log time field) both are
embedded; functions of the second program carry a V2 suffix.

Modelling choices:
  * temperatures and humidity (C++ float) are embedded as exact
    rationals; gas ADC readings (C++ int) as integers;
  * the global snapshot variables written by readAllSensors are passed
    explicitly as a SensorSnapshot record, and void functions that write
    globals or drive peripherals become pure functions returning the
    observable outcome (level produced, packet attempts, message sent,
    record appended);
  * Arduino String(float, 1) is embedded as printFloat1, the exact
    rational semantics of Print::printFloat with one decimal digit
    (add 0.05, print the integer part, then one scaled fractional digit).
-/

namespace CentinelaVerde

/-- Threshold TEMP_CRITICA (°C), source line 35. -/
def TEMP_CRITICA : ℚ := 40

/-- Threshold HUM_CRITICA (% relative humidity), source line 36. -/
def HUM_CRITICA : ℚ := 20

/-- Threshold GAS_UMBRAL_MQ2 (raw ADC), source line 37. -/
def GAS_UMBRAL_MQ2 : ℤ := 1500

/-- Threshold GAS_UMBRAL_MQ135 (raw ADC), source line 38. -/
def GAS_UMBRAL_MQ135 : ℤ := 1200

/-- One cycle's sensor readings: the globals currentTemperature,
currentHumidity, internalTemperature, mq2Value, mq135Value (source
lines 41-45) as produced by readAllSensors, passed explicitly. -/
structure SensorSnapshot where
  currentTemperature : ℚ
  currentHumidity : ℚ
  internalTemperature : ℚ
  mq2Value : ℤ
  mq135Value : ℤ
deriving DecidableEq, Repr

/-- Enum AlertLevel, source lines 47-52. -/
inductive AlertLevel where
  | AL_BAJA
  | AL_MEDIA
  | AL_ALTA
  | AL_CRITICA
deriving DecidableEq, Repr

/-- Underlying integer value of each enumerator (C++ enums are integer
valued, enumerated from 0 in declaration order). -/
def AlertLevel.toInt : AlertLevel → ℤ
  | .AL_BAJA => 0
  | .AL_MEDIA => 1
  | .AL_ALTA => 2
  | .AL_CRITICA => 3

/-- Escalation rank of a level in the order BAJA < MEDIA < ALTA < CRITICA. -/
def AlertLevel.rank : AlertLevel → ℕ
  | .AL_BAJA => 0
  | .AL_MEDIA => 1
  | .AL_ALTA => 2
  | .AL_CRITICA => 3

/-- Predicate tempHigh, source line 146: currentTemperature > TEMP_CRITICA. -/
def tempHigh (s : SensorSnapshot) : Bool :=
  s.currentTemperature > TEMP_CRITICA

/-- Predicate humLow, source line 147: currentHumidity < HUM_CRITICA. -/
def humLow (s : SensorSnapshot) : Bool :=
  s.currentHumidity < HUM_CRITICA

/-- Predicate gasDetected, source line 148: either gas reading strictly
above its threshold. -/
def gasDetected (s : SensorSnapshot) : Bool :=
  s.mq2Value > GAS_UMBRAL_MQ2 || s.mq135Value > GAS_UMBRAL_MQ135

/-- Decision chain of evaluateAlertLevel on the three predicate values
(source lines 150-158 and, identically, 417-431). -/
def classifyFlags (t h g : Bool) : AlertLevel :=
  if t && h && g then .AL_CRITICA
  else if t && g then .AL_ALTA
  else if (t && h) || (h && g) then .AL_MEDIA
  else .AL_BAJA

/-- Function evaluateAlertLevel, source lines 145-162: computes the three
threshold predicates from the current readings and assigns the alert
level through the first-match-wins chain of conditions. -/
def evaluateAlertLevel (s : SensorSnapshot) : AlertLevel :=
  if tempHigh s && humLow s && gasDetected s then .AL_CRITICA
  else if tempHigh s && gasDetected s then .AL_ALTA
  else if (tempHigh s && humLow s) || (humLow s && gasDetected s) then .AL_MEDIA
  else .AL_BAJA

theorem evaluateAlertLevel_eq_classifyFlags (s : SensorSnapshot) :
    evaluateAlertLevel s = classifyFlags (tempHigh s) (humLow s) (gasDetected s) := rfl

/-- Function getAlertLevelString modelled on the underlying enum integer
(source lines 225-233): a C++ switch over an enum compares the stored
integer against each enumerator and falls to default on any other
value, returning "DESCONOCIDO". -/
def getAlertLevelStringInt (level : ℤ) : String :=
  if level = 0 then "BAJA"
  else if level = 1 then "MEDIA"
  else if level = 2 then "ALTA"
  else if level = 3 then "CRITICA"
  else "DESCONOCIDO"

/-- Function getAlertLevelString, source lines 225-233, applied to an
in-range enumerator. -/
def getAlertLevelString (level : AlertLevel) : String :=
  getAlertLevelStringInt level.toInt

/-- Arduino String(value, 1) on a float, i.e. Print::printFloat with one
decimal digit, over exact rationals: print a minus sign for negative
input, add the rounding term 0.05 to the absolute value, print its
integer part, a dot, then the first scaled fractional digit.  Written
with integer arithmetic on the reduced numerator and denominator so that
it evaluates inside the kernel: with n = |num| and d = den, the rounded
value |q| + 1/20 is (20*n + d)/(20*d), its integer part is the floor
quotient ip, and the digit is the floor of ten times the remainder. -/
def printFloat1 (q : ℚ) : String :=
  let sign := if q.num < 0 then "-" else ""
  let sNum : ℤ := 20 * (q.num.natAbs : ℤ) + (q.den : ℤ)
  let sDen : ℤ := 20 * (q.den : ℤ)
  let ip : ℤ := sNum / sDen
  let d : ℤ := ((sNum - ip * sDen) * 10) / sDen
  sign ++ toString ip ++ "." ++ toString d

/-- Radio message built by both sendLoRaAlert variants (source lines
192-197 and 481-491); the two concatenations produce the same text. -/
def loRaMessage (level : AlertLevel) (s : SensorSnapshot) : String :=
  "ALERTA_INCENDIO,Nivel:" ++ getAlertLevelString level
    ++ ",Temp:" ++ printFloat1 s.currentTemperature
    ++ ",Hum:" ++ printFloat1 s.currentHumidity
    ++ ",MQ2:" ++ toString s.mq2Value
    ++ ",MQ135:" ++ toString s.mq135Value
    ++ ",ID:Sentinela001"

/-- Observable outcome of one call to the first program's sendLoRaAlert:
how many times LoRa.beginPacket was invoked, and the message reported
sent (none when the function returned without transmitting). -/
structure LoRaDispatch where
  beginPacketCalls : ℕ
  sent : Option String
deriving DecidableEq, Repr

/-- Function sendLoRaAlert of the first program, source lines 189-203.
The guard is short-circuit: at level AL_BAJA it returns before touching
the radio; otherwise LoRa.beginPacket is called once, and a false return
(link unable to begin a transmission, modelled by linkReady = false)
makes the function return with nothing sent and no retry. -/
def sendLoRaAlert (level : AlertLevel) (s : SensorSnapshot) (linkReady : Bool) :
    LoRaDispatch :=
  if level = .AL_BAJA then ⟨0, none⟩
  else if !linkReady then ⟨1, none⟩
  else ⟨1, some (loRaMessage level s)⟩

/-- Observable outcome of one call to the second program's sendLoRaAlert:
beginPacket invocations, whether the final "Alerta LoRa enviada"
diagnostic was reported, and the message pushed to the radio. -/
structure LoRaDispatchV2 where
  beginPacketCalls : ℕ
  reportedSent : Bool
  message : Option String
deriving DecidableEq, Repr

/-- Function sendLoRaAlert of the second program, source lines 475-501.
At AL_BAJA it returns at once; otherwise it builds the message, calls
LoRa.beginPacket once, discards its return value, pushes the message and
reports it sent - the link state (linkReady) never influences the
outcome. -/
def sendLoRaAlertV2 (level : AlertLevel) (s : SensorSnapshot) (_linkReady : Bool) :
    LoRaDispatchV2 :=
  if level = .AL_BAJA then ⟨0, false, none⟩
  else ⟨1, true, some (loRaMessage level s)⟩

/-- Log line built inside the first program's logDataToSD, source lines
210-216: seconds since boot (millis()/1000) with an "s" suffix, then the
readings and the level label, comma separated. -/
def logLine (elapsedMillis : ℕ) (s : SensorSnapshot) (level : AlertLevel) : String :=
  toString (elapsedMillis / 1000) ++ "s," ++
    printFloat1 s.currentTemperature ++ "," ++
    printFloat1 s.currentHumidity ++ "," ++
    printFloat1 s.internalTemperature ++ "," ++
    toString s.mq2Value ++ "," ++
    toString s.mq135Value ++ "," ++
    getAlertLevelString level

/-- Log entry built in the second program's loop, source lines 355-361:
identical to logLine except that the first field is the raw millis()
value (milliseconds, no unit suffix). -/
def logEntryV2 (elapsedMillis : ℕ) (s : SensorSnapshot) (level : AlertLevel) : String :=
  toString elapsedMillis ++ "," ++
    printFloat1 s.currentTemperature ++ "," ++
    printFloat1 s.currentHumidity ++ "," ++
    printFloat1 s.internalTemperature ++ "," ++
    toString s.mq2Value ++ "," ++
    toString s.mq135Value ++ "," ++
    getAlertLevelString level

/-- Observable outcome of one call to a logDataToSD variant: how many
times the log file was opened for append, and the record appended
(none when nothing was written). -/
structure SDLog where
  openAttempts : ℕ
  appended : Option String
deriving DecidableEq, Repr

/-- Function logDataToSD of the first program, source lines 205-223: if
the startup flag sdAvailable is false it returns at once; otherwise it
opens the file once (openOk models whether SD.open returned a valid
file), appends the line on success, and reports an error otherwise. -/
def logDataToSD (sdAvailable openOk : Bool) (elapsedMillis : ℕ)
    (s : SensorSnapshot) (level : AlertLevel) : SDLog :=
  if !sdAvailable then ⟨0, none⟩
  else if openOk then ⟨1, some (logLine elapsedMillis s level)⟩
  else ⟨1, none⟩

/-- Function logDataToSD of the second program, source lines 507-521: it
re-runs SD.begin every cycle (beginOk) and only on success opens the
file once and appends the prebuilt data line. -/
def logDataToSDV2 (beginOk openOk : Bool) (data : String) : SDLog :=
  if beginOk then
    if openOk then ⟨1, some data⟩ else ⟨1, none⟩
  else ⟨0, none⟩

/-- Fields of a comma-delimited text line: splits a character list at
every comma, keeping fields in order. -/
def splitFields : List Char → List (List Char)
  | [] => [[]]
  | c :: cs =>
    if c = ',' then [] :: splitFields cs
    else
      match splitFields cs with
      | [] => [[c]]
      | f :: fs => (c :: f) :: fs

/-- Comma-delimited record with the given fields in the given order. -/
def commaRecord : List String → String
  | [] => ""
  | [f] => f
  | f :: fs => f ++ "," ++ commaRecord fs

/-- C1: classify returns CRITICA exactly when all three predicates hold,
ALTA exactly when tempHigh and gasDetected hold but not all three, MEDIA
exactly when neither previous case holds and (tempHigh and humLow) or
(humLow and gasDetected) holds, and BAJA otherwise, in this priority
order with first match winning. -/
theorem C1_classify_decision_table (s : SensorSnapshot) :
    (evaluateAlertLevel s = .AL_CRITICA ↔
      tempHigh s = true ∧ humLow s = true ∧ gasDetected s = true) ∧
    (evaluateAlertLevel s = .AL_ALTA ↔
      (tempHigh s = true ∧ gasDetected s = true) ∧
      ¬(tempHigh s = true ∧ humLow s = true ∧ gasDetected s = true)) ∧
    (evaluateAlertLevel s = .AL_MEDIA ↔
      ¬(tempHigh s = true ∧ humLow s = true ∧ gasDetected s = true) ∧
      ¬(tempHigh s = true ∧ gasDetected s = true) ∧
      ((tempHigh s = true ∧ humLow s = true) ∨
        (humLow s = true ∧ gasDetected s = true))) ∧
    (evaluateAlertLevel s = .AL_BAJA ↔
      ¬(tempHigh s = true ∧ humLow s = true ∧ gasDetected s = true) ∧
      ¬(tempHigh s = true ∧ gasDetected s = true) ∧
      ¬((tempHigh s = true ∧ humLow s = true) ∨
        (humLow s = true ∧ gasDetected s = true))) := by
  rw [evaluateAlertLevel_eq_classifyFlags]
  generalize tempHigh s = t
  generalize humLow s = h
  generalize gasDetected s = g
  revert t h g
  decide

/-- C2 counterexample: at the DHT failure sentinels (temp = 0.0,
hum = 0.0) with a gas reading above threshold, humLow is true (0.0 < 20.0
holds), and the classification is AL_MEDIA, not AL_BAJA, so the claim
that humLow is false and the classification can only be LOW is false. -/
theorem C2_counterexample :
    humLow ⟨0, 0, 0, 1600, 100⟩ = true ∧
    evaluateAlertLevel ⟨0, 0, 0, 1600, 100⟩ = .AL_MEDIA ∧
    evaluateAlertLevel ⟨0, 0, 0, 1600, 100⟩ ≠ .AL_BAJA := by
  decide

/-- C2 (amended): when a DHT read failure has forced temp = 0.0 and
hum = 0.0, tempHigh is false but humLow is true, so the classification is
AL_MEDIA when gas is detected and AL_BAJA otherwise - never AL_ALTA or
AL_CRITICA. -/
theorem C2_sentinel_classification (it : ℚ) (a b : ℤ) :
    tempHigh ⟨0, 0, it, a, b⟩ = false ∧
    humLow ⟨0, 0, it, a, b⟩ = true ∧
    evaluateAlertLevel ⟨0, 0, it, a, b⟩ =
      (if gasDetected ⟨0, 0, it, a, b⟩ then .AL_MEDIA else .AL_BAJA) := by
  refine ⟨rfl, rfl, ?_⟩
  rw [evaluateAlertLevel_eq_classifyFlags]
  rw [show tempHigh ⟨0, 0, it, a, b⟩ = false from rfl]
  rw [show humLow ⟨0, 0, it, a, b⟩ = true from rfl]
  cases hg : gasDetected ⟨0, 0, it, a, b⟩ <;> simp [classifyFlags]

/-- C3: the threshold comparisons are strict: temperature exactly 40.0 is
not tempHigh, humidity exactly 20.0 is not humLow, gas readings exactly
at 1500 and 1200 are not gasDetected, and a reading exactly at its own
threshold contributes nothing to gasDetected. -/
theorem C3_thresholds_strict (t h it : ℚ) (a b : ℤ) :
    tempHigh ⟨40, h, it, a, b⟩ = false ∧
    humLow ⟨t, 20, it, a, b⟩ = false ∧
    gasDetected ⟨t, h, it, 1500, 1200⟩ = false ∧
    gasDetected ⟨t, h, it, 1500, b⟩ = decide (b > GAS_UMBRAL_MQ135) ∧
    gasDetected ⟨t, h, it, a, 1200⟩ = decide (a > GAS_UMBRAL_MQ2) := by
  refine ⟨rfl, rfl, rfl, ?_, ?_⟩
  · show (decide ((1500 : ℤ) > GAS_UMBRAL_MQ2) || decide (b > GAS_UMBRAL_MQ135)) = _
    rw [show decide ((1500 : ℤ) > GAS_UMBRAL_MQ2) = false from rfl]
    rw [Bool.false_or]
  · show (decide (a > GAS_UMBRAL_MQ2) || decide ((1200 : ℤ) > GAS_UMBRAL_MQ135)) = _
    rw [show decide ((1200 : ℤ) > GAS_UMBRAL_MQ135) = false from rfl]
    rw [Bool.or_false]

/-- C9: the classification is monotone in the three threshold predicates:
flipping any one of tempHigh, humLow, gasDetected from false to true,
holding the other two fixed, never lowers the severity rank in the order
BAJA < MEDIA < ALTA < CRITICA. -/
theorem C9_classify_monotone (s : SensorSnapshot) (t h g : Bool) :
    evaluateAlertLevel s = classifyFlags (tempHigh s) (humLow s) (gasDetected s) ∧
    (classifyFlags false h g).rank ≤ (classifyFlags true h g).rank ∧
    (classifyFlags t false g).rank ≤ (classifyFlags t true g).rank ∧
    (classifyFlags t h false).rank ≤ (classifyFlags t h true).rank := by
  refine ⟨rfl, ?_, ?_, ?_⟩ <;> revert t h g <;> decide

/-- C10: the secondary probe temperature does not influence alerting:
changing only internalTemperature leaves the classification, both radio
dispatchers' outcomes, and the first program's dispatch unchanged, while
the persisted log line does depend on it. -/
theorem C10_secondary_temp_noninterference (s : SensorSnapshot) (q : ℚ)
    (level : AlertLevel) (link : Bool) :
    evaluateAlertLevel { s with internalTemperature := q } = evaluateAlertLevel s ∧
    sendLoRaAlert (evaluateAlertLevel { s with internalTemperature := q })
        { s with internalTemperature := q } link =
      sendLoRaAlert (evaluateAlertLevel s) s link ∧
    sendLoRaAlertV2 level { s with internalTemperature := q } link =
      sendLoRaAlertV2 level s link ∧
    logLine 0 ⟨25, 50, 1, 100, 100⟩ .AL_BAJA ≠ logLine 0 ⟨25, 50, 2, 100, 100⟩ .AL_BAJA := by
  exact ⟨rfl, rfl, rfl, by decide⟩

/-- C4 counterexample: the second program's dispatcher ignores whether the
radio link can begin a transmission; called at level AL_ALTA with the
link unable to begin, it still pushes the message and reports it sent,
so the claim that the dispatcher aborts and reports not sent is false. -/
theorem C4_counterexample :
    (sendLoRaAlertV2 .AL_ALTA ⟨45, 30, 0, 1600, 100⟩ false).reportedSent = true ∧
    (sendLoRaAlertV2 .AL_ALTA ⟨45, 30, 0, 1600, 100⟩ false).message ≠ none := by
  decide

/-- C4 (amended): both dispatchers attempt nothing at AL_BAJA and exactly
one beginPacket per cycle otherwise; on a link that cannot begin, the
first program's dispatcher aborts without error and reports nothing
sent, while the second program's attempts and reports sent regardless of
the link state. -/
theorem C4_dispatch_policy (s : SensorSnapshot) (level : AlertLevel) (link : Bool) :
    sendLoRaAlert .AL_BAJA s link = ⟨0, none⟩ ∧
    (level ≠ .AL_BAJA → (sendLoRaAlert level s link).beginPacketCalls = 1) ∧
    (level ≠ .AL_BAJA → sendLoRaAlert level s false = ⟨1, none⟩) ∧
    (level ≠ .AL_BAJA → sendLoRaAlert level s true = ⟨1, some (loRaMessage level s)⟩) ∧
    sendLoRaAlertV2 .AL_BAJA s link = ⟨0, false, none⟩ ∧
    (level ≠ .AL_BAJA → sendLoRaAlertV2 level s link = ⟨1, true, some (loRaMessage level s)⟩) := by
  refine ⟨rfl, ?_, ?_, ?_, rfl, ?_⟩ <;> intro hl <;> cases level <;> cases link <;>
    simp_all [sendLoRaAlert, sendLoRaAlertV2]

/-- Witness for C4_dispatch_policy: at level AL_ALTA with the link unable
to begin, the first program's dispatcher makes exactly one attempt and
sends nothing. -/
theorem C4_dispatch_policy_witness :
    (sendLoRaAlert .AL_ALTA ⟨45, 30, 0, 1600, 100⟩ false).beginPacketCalls = 1 ∧
    sendLoRaAlert .AL_ALTA ⟨45, 30, 0, 1600, 100⟩ false = ⟨1, none⟩ :=
  ⟨(C4_dispatch_policy ⟨45, 30, 0, 1600, 100⟩ .AL_ALTA false).2.1 (by decide),
   (C4_dispatch_policy ⟨45, 30, 0, 1600, 100⟩ .AL_ALTA false).2.2.1 (by decide)⟩

/-- C5: every message handed to either radio dispatcher follows the fixed
comma-delimited format built from the severity label and the readings,
and in scenario A - snapshot (45.0, 15.0, gasA 1600, gasB 100) - the
level is AL_CRITICA and the exact message is sent. -/
theorem C5_lora_message_format :
    (∀ (s : SensorSnapshot) (level : AlertLevel) (link : Bool) (m : String),
        (sendLoRaAlert level s link).sent = some m →
        m = "ALERTA_INCENDIO,Nivel:" ++ getAlertLevelString level
          ++ ",Temp:" ++ printFloat1 s.currentTemperature
          ++ ",Hum:" ++ printFloat1 s.currentHumidity
          ++ ",MQ2:" ++ toString s.mq2Value
          ++ ",MQ135:" ++ toString s.mq135Value
          ++ ",ID:Sentinela001") ∧
    (∀ (s : SensorSnapshot) (level : AlertLevel) (link : Bool) (m : String),
        (sendLoRaAlertV2 level s link).message = some m →
        m = "ALERTA_INCENDIO,Nivel:" ++ getAlertLevelString level
          ++ ",Temp:" ++ printFloat1 s.currentTemperature
          ++ ",Hum:" ++ printFloat1 s.currentHumidity
          ++ ",MQ2:" ++ toString s.mq2Value
          ++ ",MQ135:" ++ toString s.mq135Value
          ++ ",ID:Sentinela001") ∧
    evaluateAlertLevel ⟨45, 15, 0, 1600, 100⟩ = .AL_CRITICA ∧
    (sendLoRaAlert (evaluateAlertLevel ⟨45, 15, 0, 1600, 100⟩) ⟨45, 15, 0, 1600, 100⟩ true).sent =
      some "ALERTA_INCENDIO,Nivel:CRITICA,Temp:45.0,Hum:15.0,MQ2:1600,MQ135:100,ID:Sentinela001" := by
  refine ⟨?_, ?_, by decide, by decide⟩
  · intro s level link m hm
    by_cases hb : level = .AL_BAJA
    · simp [sendLoRaAlert, hb] at hm
    · cases link
      · simp [sendLoRaAlert, hb] at hm
      · simp only [sendLoRaAlert, hb, if_false, Bool.not_true, if_neg] at hm
        simp only [Bool.false_eq_true, if_false, Option.some.injEq] at hm
        subst hm
        rfl
  · intro s level link m hm
    by_cases hb : level = .AL_BAJA
    · simp [sendLoRaAlertV2, hb] at hm
    · simp only [sendLoRaAlertV2, if_neg hb, Option.some.injEq] at hm
      subst hm
      rfl

/-- Witness for C5_lora_message_format: the scenario A message equals the
format template instantiated at level AL_CRITICA and readings
(45.0, 15.0, 1600, 100). -/
theorem C5_lora_message_format_witness :
    (sendLoRaAlert .AL_CRITICA ⟨45, 15, 0, 1600, 100⟩ true).sent =
      some "ALERTA_INCENDIO,Nivel:CRITICA,Temp:45.0,Hum:15.0,MQ2:1600,MQ135:100,ID:Sentinela001" ∧
    "ALERTA_INCENDIO,Nivel:CRITICA,Temp:45.0,Hum:15.0,MQ2:1600,MQ135:100,ID:Sentinela001" =
      "ALERTA_INCENDIO,Nivel:" ++ getAlertLevelString .AL_CRITICA
        ++ ",Temp:" ++ printFloat1 45
        ++ ",Hum:" ++ printFloat1 15
        ++ ",MQ2:" ++ toString (1600 : ℤ)
        ++ ",MQ135:" ++ toString (100 : ℤ)
        ++ ",ID:Sentinela001" :=
  ⟨by decide,
   C5_lora_message_format.1 ⟨45, 15, 0, 1600, 100⟩ .AL_CRITICA true _ (by decide)⟩

/-- C6: the first program's logger makes exactly one file-open (append)
attempt per cycle when storage was marked available at startup,
regardless of severity, and zero attempts with nothing appended when it
was marked unavailable; the second program's per-cycle re-probe behaves
the same way with respect to that cycle's probe outcome. -/
theorem C6_logger_policy (openOk : Bool) (ms : ℕ) (s : SensorSnapshot)
    (level level2 : AlertLevel) (data : String) :
    (logDataToSD true openOk ms s level).openAttempts = 1 ∧
    logDataToSD false openOk ms s level = ⟨0, none⟩ ∧
    (logDataToSD true openOk ms s level).openAttempts =
      (logDataToSD true openOk ms s level2).openAttempts ∧
    (logDataToSDV2 true openOk data).openAttempts = 1 ∧
    logDataToSDV2 false openOk data = ⟨0, none⟩ := by
  cases openOk <;> exact ⟨rfl, rfl, rfl, rfl, rfl⟩

/-- C7 counterexample: the second program's log entry begins with the raw
millis() value, not the elapsed seconds since boot: at 5000 ms the first
comma-delimited field is "5000" although the elapsed seconds render as
"5", so the claim is false for that appended record. -/
theorem C7_counterexample :
    (splitFields (logEntryV2 5000 ⟨25, 50, 21, 100, 100⟩ .AL_BAJA).data).map String.mk =
      ["5000", "25.0", "50.0", "21.0", "100", "100", "BAJA"] ∧
    toString ((5000 : ℕ) / 1000) = "5" ∧
    ("5000" : String) ≠ "5" ∧ ("5000" : String) ≠ "5s" := by
  decide

/-- C7 (amended): the first program's appended log line is the
comma-delimited record whose fields are, in order, the elapsed seconds
since boot carrying an "s" suffix, the primary temperature and relative
humidity and secondary temperature each to one decimal, the two gas
readings, and the severity label; the second program's entry has the
same fields except that its first field is the raw elapsed milliseconds. -/
theorem C7_log_record_fields (ms : ℕ) (s : SensorSnapshot) (level : AlertLevel) :
    logLine ms s level = commaRecord
      [toString (ms / 1000) ++ "s",
       printFloat1 s.currentTemperature,
       printFloat1 s.currentHumidity,
       printFloat1 s.internalTemperature,
       toString s.mq2Value,
       toString s.mq135Value,
       getAlertLevelString level] ∧
    logEntryV2 ms s level = commaRecord
      [toString ms,
       printFloat1 s.currentTemperature,
       printFloat1 s.currentHumidity,
       printFloat1 s.internalTemperature,
       toString s.mq2Value,
       toString s.mq135Value,
       getAlertLevelString level] ∧
    (logDataToSD true true ms s level).appended = some (logLine ms s level) := by
  have hs : ∀ x : String, ("s," : String) ++ x = "s" ++ ("," ++ x) := by
    intro x
    rw [← String.append_assoc]
    rfl
  refine ⟨?_, ?_, rfl⟩
  · simp only [logLine, commaRecord, String.append_assoc, hs]
  · simp only [logEntryV2, commaRecord, String.append_assoc]

/-- C8: the label mapping returns exactly BAJA, MEDIA, ALTA, CRITICA for
the four enumerators and DESCONOCIDO for every other underlying integer
value of the enum. -/
theorem C8_level_labels (n : ℤ) :
    getAlertLevelString .AL_BAJA = "BAJA" ∧
    getAlertLevelString .AL_MEDIA = "MEDIA" ∧
    getAlertLevelString .AL_ALTA = "ALTA" ∧
    getAlertLevelString .AL_CRITICA = "CRITICA" ∧
    (n ≠ 0 → n ≠ 1 → n ≠ 2 → n ≠ 3 → getAlertLevelStringInt n = "DESCONOCIDO") := by
  refine ⟨rfl, rfl, rfl, rfl, ?_⟩
  intro h0 h1 h2 h3
  simp [getAlertLevelStringInt, h0, h1, h2, h3]

/-- Witness for C8_level_labels: the out-of-range enum value 7 maps to
DESCONOCIDO. -/
theorem C8_level_labels_witness : getAlertLevelStringInt 7 = "DESCONOCIDO" :=
  (C8_level_labels 7).2.2.2.2 (by decide) (by decide) (by decide) (by decide)

end CentinelaVerde
